import Mathlib

/-!
Verification of the VxRail health-check scripts.

This file gives a shallow embedding of the health-aggregation logic of
`vxrail_health_check.py` and of the pre-check submit/poll loop of
`check_health.py`, and proves the specified properties about them.

Modelling conventions:
* HTTP transport is abstracted as an `ApiResult` value per endpoint call:
  `make_api_request` returns `some json` on success and `none` on any
  request error, exactly as the Python helper returns the parsed JSON or
  `None` after printing a diagnostic.
* JSON records are modelled as structures whose fields are `Option String`
  (a missing JSON key is `none`); `.get(key, default)` becomes
  `Option.getD`.
* Python truthiness on responses (`if not response`) is modelled by the
  `none` case together with an explicit emptiness test on lists; an empty
  dict response behaves identically to an all-fields-missing record here.
* Python's `str.lower`/`str.upper` are modelled by `String.toLower` /
  `String.toUpper` (ASCII case mapping, which covers every label the
  scripts compare against).
-/

set_option maxHeartbeats 1000000

namespace VxRail

/-- Transport-level failures distinguished by the scripts' error handling. -/
inductive TransportError
  | unauthorized
  | notFound
  | unreachable
  | timedOut
  | malformed
  deriving DecidableEq, Repr

/-- Outcome of one HTTP call: parsed body or a typed transport failure. -/
inductive ApiResult (α : Type)
  | ok (v : α)
  | err (e : TransportError)
  deriving DecidableEq

/-- `make_api_request` in `vxrail_health_check.py`: returns the parsed JSON
on success; every `requests.exceptions.RequestException` is caught, a
diagnostic is printed, and `None` is returned. -/
def make_api_request {α : Type} (r : ApiResult α) : Option α :=
  match r with
  | .ok v => some v
  | .err _ => none

/-- The diagnostic printed by `make_api_request` for each failure class
(lines 60-74 of `vxrail_health_check.py`). -/
def api_error_message (endpoint : String) (e : TransportError) : String :=
  match e with
  | .unauthorized => "Error: Authentication failed. Please check your credentials."
  | .notFound => "Error: Endpoint " ++ endpoint ++ " not found."
  | .unreachable => "Error: Could not connect to VxRail Manager. Please check the URL and network connection."
  | .timedOut => "Error: Request timed out. The server took too long to respond."
  | .malformed => "Error: An unexpected error occurred."

/-- Response of `/rest/vxm/v1/system`. -/
structure SystemResp where
  version : Option String
  deriving DecidableEq

/-- Response of `/rest/vxm/v1/cluster`. -/
structure ClusterResp where
  cluster_name : Option String
  health : Option String
  deriving DecidableEq

/-- One disk object nested in a host record of `/rest/vxm/v16/hosts`. -/
structure Disk where
  sn : Option String
  disk_state : Option String
  deriving DecidableEq

/-- One host record of `/rest/vxm/v16/hosts` (fields the script reads). -/
structure Host where
  hostname : Option String
  health : Option String
  disks : List Disk
  deriving DecidableEq

/-- Python's `str.lower()`, modelled as the per-character ASCII case map
applied to every character of the string (`Char.toLower` is exactly that
map; mapping over `data` keeps the definition kernel-reducible). -/
def pyLower (s : String) : String := ⟨s.data.map Char.toLower⟩

/-- Python's `str.upper()`, modelled like `pyLower`. -/
def pyUpper (s : String) : String := ⟨s.data.map Char.toUpper⟩

/-- `health_status.lower() == 'healthy'`: the healthy predicate applied to
cluster and host health labels. -/
def labelHealthy (s : String) : Bool :=
  pyLower s == "healthy"

/-- `disk_state.upper() == 'OK'`: the healthy predicate applied to disk
states (the source tests its negation to clear the flag). -/
def diskOK (s : String) : Bool :=
  pyUpper s == "OK"

/-- `check_vxrail_version`: returns `response.get('version')` when the
request succeeded, `None` otherwise. -/
def check_vxrail_version (resp : Option SystemResp) : Option String :=
  match resp with
  | some r => r.version
  | none => none

/-- `check_cluster_health`: on a successful response compares
`response.get('health', 'Unknown').lower()` with `'healthy'`; returns
`False` when the request failed. -/
def check_cluster_health (resp : Option ClusterResp) : Bool :=
  match resp with
  | some r => labelHealthy (r.health.getD "Unknown")
  | none => false

/-- Loop body of `check_hosts_health`: clears the `all_healthy` flag when a
host's `health` label (default `'Unknown'`) is not `'healthy'`. -/
def hostHealthStep (all_healthy : Bool) (h : Host) : Bool :=
  if pyLower (h.health.getD "Unknown") != "healthy" then false else all_healthy

/-- `check_hosts_health`: `False` on a failed or empty (`if not response`)
hosts response, otherwise the fold of `hostHealthStep` over all hosts. -/
def check_hosts_health (resp : Option (List Host)) : Bool :=
  match resp with
  | none => false
  | some hosts =>
    if hosts.isEmpty then false
    else hosts.foldl hostHealthStep true

/-- `disk.get('sn', 'Unknown')`: the deduplication key of a disk. -/
def diskKey (d : Disk) : String := d.sn.getD "Unknown"

/-- `disk.get('disk_state', 'Unknown')`. -/
def diskState (d : Disk) : String := d.disk_state.getD "Unknown"

/-- Inner loop body of `check_storage_health`: given the accumulator
`(all_healthy, storage_info)`, a disk whose serial number is already a key
of `storage_info` is skipped (`if sn not in storage_info`); a new serial
number has its state checked against `'OK'` and is recorded. The insertion-
ordered Python dict is modelled as an association list extended on the
right. -/
def storageStep (acc : Bool × List (String × String)) (d : Disk) :
    Bool × List (String × String) :=
  match acc.2.lookup (diskKey d) with
  | some _ => acc
  | none =>
    ((if pyUpper (diskState d) != "OK" then false else acc.1),
      acc.2 ++ [(diskKey d, diskState d)])

/-- The nested `for host ... for disk` loops of `check_storage_health`,
threading `(all_healthy, storage_info)` through every disk of every host. -/
def storageScan (hosts : List Host) : Bool × List (String × String) :=
  hosts.foldl (fun acc h => h.disks.foldl storageStep acc) (true, [])

/-- The final `storage_info` map (serial number, first-observed state). -/
def storage_info (hosts : List Host) : List (String × String) :=
  (storageScan hosts).2

/-- `check_storage_health`: `False` on a failed or empty hosts response,
otherwise the `all_healthy` flag left by the nested scan. -/
def check_storage_health (resp : Option (List Host)) : Bool :=
  match resp with
  | none => false
  | some hosts =>
    if hosts.isEmpty then false
    else (storageScan hosts).1

/-- `all([cluster_healthy, hosts_healthy, storage_healthy])` computed by
`main` from the three check results. -/
def system_healthy (c : Option ClusterResp) (hs ss : Option (List Host)) : Bool :=
  check_cluster_health c && (check_hosts_health hs && check_storage_health ss)

/-- The four API responses a run of `main` consumes, in program order:
`/rest/vxm/v1/system`, `/rest/vxm/v1/cluster`, and the two independent
`/rest/vxm/v16/hosts` calls made by `check_hosts_health` and
`check_storage_health`. -/
structure Transport where
  system : ApiResult SystemResp
  cluster : ApiResult ClusterResp
  hosts1 : ApiResult (List Host)
  hosts2 : ApiResult (List Host)
  deriving DecidableEq

/-- The endpoints `main` queries, in order.  `main` is straight-line code:
no check result or request failure causes an early exit, so every run
issues exactly these four requests. -/
def endpoints_queried : List String :=
  ["/rest/vxm/v1/system", "/rest/vxm/v1/cluster",
   "/rest/vxm/v16/hosts", "/rest/vxm/v16/hosts"]

/-- Observable outcome of one run of `main`. -/
structure RunTrace where
  requests : List String
  version : Option String
  cluster_healthy : Bool
  hosts_healthy : Bool
  storage_healthy : Bool
  overall_healthy : Bool
  completed : Bool
  deriving DecidableEq

/-- `main` of `vxrail_health_check.py`: performs the version query and the
three health checks unconditionally (every transport error is absorbed
inside `make_api_request`), then prints the summary; `completed` records
that the summary is reached without raising. -/
def mainRun (t : Transport) : RunTrace :=
  let version := check_vxrail_version (make_api_request t.system)
  let clusterResp := make_api_request t.cluster
  let hostsResp := make_api_request t.hosts1
  let storageResp := make_api_request t.hosts2
  { requests := endpoints_queried
    version := version
    cluster_healthy := check_cluster_health clusterResp
    hosts_healthy := check_hosts_health hostsResp
    storage_healthy := check_storage_health storageResp
    overall_healthy := system_healthy clusterResp hostsResp storageResp
    completed := true }

/-! Embedding of `perform_health_precheck` in `check_health.py`.

The Python function POSTs `/v1/lcm/precheck`, reads `request_id` from the
response, and if it is missing or empty reports a failure and returns.
Otherwise it enters `while True`: each iteration GETs
`/v1/requests/{request_id}`; on state `COMPLETED` it GETs the separate
result resource `/v1/system/prechecks/{request_id}/result` and returns its
body; on state `FAILED` it returns `None`; on any other state it prints a
dot and sleeps 5 seconds before the next poll.  A transport error anywhere
is caught by the surrounding `try` and ends the call with `None`.

The unbounded loop is embedded with an explicit iteration budget (`fuel`):
`pollLoop ... fuel = none` means the Python loop has not returned within
`fuel` iterations.  The poll stream is a function from the iteration index
to that iteration's status response. -/

/-- Body of one `/v1/requests/{request_id}` status response:
`status_data.get('state', '')` and `status_data.get('error', ...)`. -/
structure StatusResp where
  state : Option String
  error : Option String
  deriving DecidableEq

/-- How a call of `perform_health_precheck` ends. -/
inductive PrecheckOutcome
  | submissionError
  | noRequestId
  | payload (p : String)
  | failedState
  | transportError
  deriving DecidableEq

/-- Outcome of `perform_health_precheck` together with the counts of
status polls issued, sleeps performed, and result-resource fetches. -/
structure PrecheckTrace where
  outcome : PrecheckOutcome
  statusPolls : Nat
  sleeps : Nat
  resultFetches : Nat
  deriving DecidableEq

/-- The `while True` polling loop of `perform_health_precheck`,
accumulating the iteration index `i`, the polls issued and the sleeps
performed so far; `fuel` bounds the number of iterations evaluated and
`none` means the loop is still running after `fuel` iterations. -/
def pollLoop (status : Nat → ApiResult StatusResp) (result : ApiResult String)
    (i polls sleeps : Nat) : Nat → Option PrecheckTrace
  | 0 => none
  | fuel + 1 =>
    match status i with
    | .err _ => some ⟨.transportError, polls + 1, sleeps, 0⟩
    | .ok st =>
      if st.state.getD "" == "COMPLETED" then
        match result with
        | .ok p => some ⟨.payload p, polls + 1, sleeps, 1⟩
        | .err _ => some ⟨.transportError, polls + 1, sleeps, 1⟩
      else if st.state.getD "" == "FAILED" then
        some ⟨.failedState, polls + 1, sleeps, 0⟩
      else
        pollLoop status result (i + 1) (polls + 1) (sleeps + 1) fuel

/-- `perform_health_precheck`: submit, then reject a missing or empty
`request_id` (`if not request_id`), then poll.  `submit` carries the
optional `request_id` of the POST response. -/
def runPrecheck (submit : ApiResult (Option String))
    (status : Nat → ApiResult StatusResp) (result : ApiResult String)
    (fuel : Nat) : Option PrecheckTrace :=
  match submit with
  | .err _ => some ⟨.submissionError, 0, 0, 0⟩
  | .ok rid =>
    if rid.getD "" == "" then some ⟨.noRequestId, 0, 0, 0⟩
    else pollLoop status result 0 0 0 fuel

/-- A status observation that makes the Python loop stop: a transport
error (the enclosing `try` returns `None`) or a `COMPLETED`/`FAILED`
state. -/
def isTerminalObs (r : ApiResult StatusResp) : Bool :=
  match r with
  | .err _ => true
  | .ok st => st.state.getD "" == "COMPLETED" || st.state.getD "" == "FAILED"

/-- A poll stream that answers `RUNNING` forever. -/
def statusAlwaysRunning : Nat → ApiResult StatusResp :=
  fun _ => .ok ⟨some "RUNNING", none⟩

/-- Poll stream answering `RUNNING` twice and `COMPLETED` from then on. -/
def statusRunRunCompleted : Nat → ApiResult StatusResp :=
  fun i => if i < 2 then .ok ⟨some "RUNNING", none⟩ else .ok ⟨some "COMPLETED", none⟩

/-! Helper lemmas about the aggregation folds. -/

/-- The `hostHealthStep` guard ands the flag with `labelHealthy`. -/
lemma hostHealthStep_eq (b : Bool) (h : Host) :
    hostHealthStep b h = (b && labelHealthy (h.health.getD "Unknown")) := by
  unfold hostHealthStep labelHealthy
  cases hb : pyLower (h.health.getD "Unknown") == "healthy" <;> simp [bne, hb]

/-- The host fold computes the conjunction of `labelHealthy` over all hosts. -/
lemma foldl_hostHealthStep (hs : List Host) (b : Bool) :
    hs.foldl hostHealthStep b
      = (b && hs.all (fun h => labelHealthy (h.health.getD "Unknown"))) := by
  induction hs generalizing b with
  | nil => simp
  | cons h hs ih => simp [hostHealthStep_eq, ih, Bool.and_assoc]

/-- On a nonempty hosts response, `check_hosts_health` is `List.all`. -/
lemma check_hosts_health_some (hs : List Host) (hne : hs ≠ []) :
    check_hosts_health (some hs)
      = hs.all (fun h => labelHealthy (h.health.getD "Unknown")) := by
  have hred : check_hosts_health (some hs)
      = if hs.isEmpty then false else hs.foldl hostHealthStep true := rfl
  rw [hred, if_neg (by simpa [List.isEmpty_iff] using hne), foldl_hostHealthStep]
  simp

/-- The healthy predicate of one deduplicated storage record. -/
def okPred (p : String × String) : Bool := diskOK p.2

/-- One `storageStep` preserves "flag = all recorded states are OK". -/
lemma storageStep_flag (acc : Bool × List (String × String)) (d : Disk)
    (h : acc.1 = acc.2.all okPred) :
    (storageStep acc d).1 = (storageStep acc d).2.all okPred := by
  unfold storageStep
  cases hl : acc.2.lookup (diskKey d) with
  | some v => simpa using h
  | none =>
    cases hb : pyUpper (diskState d) == "OK" <;>
      simp [okPred, diskOK, bne, hb, h, List.all_append]

/-- The disk fold preserves "flag = all recorded states are OK". -/
lemma scanDisks_flag (ds : List Disk) (acc : Bool × List (String × String))
    (h : acc.1 = acc.2.all okPred) :
    (ds.foldl storageStep acc).1 = (ds.foldl storageStep acc).2.all okPred := by
  induction ds generalizing acc with
  | nil => simpa using h
  | cons d ds ih => simpa using ih _ (storageStep_flag acc d h)

/-- All disks of all hosts, in the order the nested loops visit them. -/
def allDisks (hosts : List Host) : List Disk :=
  hosts.foldr (fun h acc => h.disks ++ acc) []

lemma allDisks_cons (h : Host) (hs : List Host) :
    allDisks (h :: hs) = h.disks ++ allDisks hs := rfl

/-- The nested host/disk fold equals the flat fold over `allDisks`. -/
lemma storageScan_eq_foldl (hosts : List Host) :
    ∀ acc, hosts.foldl (fun acc h => h.disks.foldl storageStep acc) acc
      = (allDisks hosts).foldl storageStep acc := by
  induction hosts with
  | nil => intro acc; rfl
  | cons h hs ih =>
    intro acc
    simp only [List.foldl_cons, allDisks_cons, List.foldl_append]
    exact ih _

lemma storageScan_def (hosts : List Host) :
    storageScan hosts = (allDisks hosts).foldl storageStep (true, []) := by
  unfold storageScan
  exact storageScan_eq_foldl hosts _

/-- The storage flag is the conjunction of `okPred` over the deduplicated
records: discarded duplicate observations cannot change the verdict. -/
lemma storageScan_flag (hosts : List Host) :
    (storageScan hosts).1 = (storage_info hosts).all okPred := by
  unfold storage_info
  rw [storageScan_def]
  exact scanDisks_flag _ _ (by simp)

/-- On a nonempty hosts response, `check_storage_health` is the conjunction
of `okPred` over the deduplicated records. -/
lemma check_storage_health_some (hs : List Host) (hne : hs ≠ []) :
    check_storage_health (some hs) = (storage_info hs).all okPred := by
  have hred : check_storage_health (some hs)
      = if hs.isEmpty then false else (storageScan hs).1 := rfl
  rw [hred, if_neg (by simpa [List.isEmpty_iff] using hne)]
  exact storageScan_flag hs

/-! Deduplication lemmas: `storage_info` keeps the first observation per
serial number and its keys are free of duplicates. -/

/-- `storageStep` on an already-recorded serial number is the identity. -/
lemma storageStep_of_mem (acc : Bool × List (String × String)) (d : Disk)
    (v : String) (hl : acc.2.lookup (diskKey d) = some v) :
    storageStep acc d = acc := by
  unfold storageStep
  rw [hl]

/-- `storageStep` on a fresh serial number records its state and updates
the flag. -/
lemma storageStep_of_new (acc : Bool × List (String × String)) (d : Disk)
    (hl : acc.2.lookup (diskKey d) = none) :
    storageStep acc d
      = ((if pyUpper (diskState d) != "OK" then false else acc.1),
          acc.2 ++ [(diskKey d, diskState d)]) := by
  unfold storageStep
  rw [hl]

/-- Looking up a serial number in the scanned map finds either the entry
already in the accumulator, or else the first observation in the disk
list. -/
lemma scanDisks_lookup (ds : List Disk) (s : String) :
    ∀ acc : Bool × List (String × String),
      ((ds.foldl storageStep acc).2).lookup s
        = (acc.2.lookup s).or
            (((ds.find? (fun d => diskKey d == s)).map diskState)) := by
  induction ds with
  | nil => intro acc; simp
  | cons d ds ih =>
    intro acc
    rw [List.foldl_cons]
    by_cases hk : diskKey d = s
    · subst hk
      rw [List.find?_cons_of_pos _ (by simp)]
      cases hl : acc.2.lookup (diskKey d) with
      | some v => rw [storageStep_of_mem acc d v hl, ih, hl]; simp
      | none =>
        rw [storageStep_of_new acc d hl, ih]
        simp only [List.lookup_append, hl]
        simp
    · rw [List.find?_cons_of_neg _ (by simp [hk])]
      cases hl : acc.2.lookup (diskKey d) with
      | some v => rw [storageStep_of_mem acc d v hl, ih]
      | none =>
        rw [storageStep_of_new acc d hl, ih]
        simp only [List.lookup_append]
        have hsing : ([(diskKey d, diskState d)] : List (String × String)).lookup s = none := by
          simp [List.lookup_eq_none_iff, bne, Ne.symm hk]
        rw [hsing, Option.or_none]

/-- The recorded entry for a serial number is the first observation among
all disks of all hosts. -/
lemma storage_info_lookup (hosts : List Host) (s : String) :
    (storage_info hosts).lookup s
      = ((allDisks hosts).find? (fun d => diskKey d == s)).map diskState := by
  unfold storage_info
  rw [storageScan_def, scanDisks_lookup]
  simp

/-- The scan never records two entries with the same serial number. -/
lemma scanDisks_keys_nodup (ds : List Disk) :
    ∀ acc : Bool × List (String × String),
      (acc.2.map Prod.fst).Nodup →
      ((ds.foldl storageStep acc).2.map Prod.fst).Nodup := by
  induction ds with
  | nil => intro acc h; simpa using h
  | cons d ds ih =>
    intro acc h
    rw [List.foldl_cons]
    apply ih
    unfold storageStep
    cases hl : acc.2.lookup (diskKey d) with
    | some v => simpa using h
    | none =>
      have hnm : diskKey d ∉ acc.2.map Prod.fst := by
        intro hmem
        rcases List.mem_map.mp hmem with ⟨p, hp, hfst⟩
        have := (List.lookup_eq_none_iff.mp hl) p hp
        simp [← hfst] at this
      simp only [List.map_append, List.map_cons, List.map_nil]
      refine List.Nodup.append h (List.nodup_singleton _) ?_
      intro a ha hb
      simp at hb
      subst hb
      exact hnm ha

lemma storage_info_keys_nodup (hosts : List Host) :
    ((storage_info hosts).map Prod.fst).Nodup := by
  unfold storage_info
  rw [storageScan_def]
  exact scanDisks_keys_nodup _ _ (by simp)

/-! Case-insensitivity lemmas: comparing after lowercasing and comparing
after uppercasing agree, so the two healthy predicates are both
case-insensitive equality tests. -/

lemma char_toNat_ofNat (n : Nat) (h : n.isValidChar) : (Char.ofNat n).toNat = n := by
  simp [Char.ofNat, h, Char.ofNatAux, Char.toNat, UInt32.toNat, BitVec.toNat_ofNatLt]

lemma char_toLower_toUpper (c : Char) : c.toUpper.toLower = c.toLower := by
  simp only [Char.toUpper, Char.toLower]
  by_cases h : c.toNat ≥ 97 ∧ c.toNat ≤ 122
  · rw [if_pos h]
    have hv : (c.toNat - 32).isValidChar := Or.inl (by omega)
    rw [char_toNat_ofNat _ hv, if_pos (by omega : c.toNat - 32 ≥ 65 ∧ c.toNat - 32 ≤ 90),
      if_neg (by omega : ¬(c.toNat ≥ 65 ∧ c.toNat ≤ 90))]
    have harith : c.toNat - 32 + 32 = c.toNat := by omega
    rw [harith, Char.ofNat_toNat]
  · rw [if_neg h]

lemma char_toUpper_toLower (c : Char) : c.toLower.toUpper = c.toUpper := by
  simp only [Char.toUpper, Char.toLower]
  by_cases h : c.toNat ≥ 65 ∧ c.toNat ≤ 90
  · rw [if_pos h]
    have hv : (c.toNat + 32).isValidChar := Or.inl (by omega)
    rw [char_toNat_ofNat _ hv, if_pos (by omega : c.toNat + 32 ≥ 97 ∧ c.toNat + 32 ≤ 122),
      if_neg (by omega : ¬(c.toNat ≥ 97 ∧ c.toNat ≤ 122))]
    have harith : c.toNat + 32 - 32 = c.toNat := by omega
    rw [harith, Char.ofNat_toNat]
  · rw [if_neg h]

/-- `pyLower` agrees with the library lowercase map. -/
lemma pyLower_eq_toLower (s : String) : pyLower s = s.toLower := by
  rw [String.toLower, String.map_eq]
  rfl

/-- `pyUpper` agrees with the library uppercase map. -/
lemma pyUpper_eq_toUpper (s : String) : pyUpper s = s.toUpper := by
  rw [String.toUpper, String.map_eq]
  rfl

lemma pyLower_pyUpper (s : String) : pyLower (pyUpper s) = pyLower s := by
  unfold pyLower pyUpper
  simp only [List.map_map]
  have hfun : Char.toLower ∘ Char.toUpper = Char.toLower := funext char_toLower_toUpper
  rw [hfun]

lemma pyUpper_pyLower (s : String) : pyUpper (pyLower s) = pyUpper s := by
  unfold pyLower pyUpper
  simp only [List.map_map]
  have hfun : Char.toUpper ∘ Char.toLower = Char.toUpper := funext char_toUpper_toLower
  rw [hfun]

/-- Testing `upper() == 'OK'` is the same as testing `lower() == 'ok'`:
both are case-insensitive equality with the word OK. -/
lemma pyUpper_eq_OK_iff (s : String) : pyUpper s = "OK" ↔ pyLower s = "ok" := by
  constructor
  · intro h
    have h2 := pyLower_pyUpper s
    rw [h] at h2
    rw [← h2]
    rfl
  · intro h
    have h2 := pyUpper_pyLower s
    rw [h] at h2
    rw [← h2]
    rfl

/-! Claim theorems. -/

/-- C4: a cluster or host record is judged healthy iff its health label
compared case-insensitively equals "healthy" (so "HEALTHY", "Healthy" and
"healthy" map to true and "degraded" to false), and a storage record is
judged healthy iff its disk state compared case-insensitively equals "OK".
Case-insensitive equality is comparison after lowercasing both sides. -/
theorem C4_case_insensitive_predicates (s t : String) (c : ClusterResp) :
    (labelHealthy s = true ↔ pyLower s = pyLower "healthy")
    ∧ (diskOK t = true ↔ pyLower t = pyLower "OK")
    ∧ check_cluster_health (some c) = labelHealthy (c.health.getD "Unknown")
    ∧ labelHealthy "HEALTHY" = true ∧ labelHealthy "Healthy" = true
    ∧ labelHealthy "healthy" = true ∧ labelHealthy "degraded" = false
    ∧ diskOK "ok" = true ∧ diskOK "Ok" = true ∧ diskOK "OK" = true
    ∧ diskOK "DEGRADED" = false := by
  refine ⟨?_, ?_, rfl, by decide, by decide, by decide, by decide,
    by decide, by decide, by decide, by decide⟩
  · have hh : pyLower "healthy" = "healthy" := rfl
    rw [hh]
    simp [labelHealthy]
  · have hok : pyLower "OK" = "ok" := rfl
    rw [hok]
    unfold diskOK
    rw [beq_iff_eq]
    exact pyUpper_eq_OK_iff t

/-- C9: an empty hosts response (zero hosts) makes both
`check_hosts_health` and `check_storage_health` return `False`, the same
value as a failed query: a cluster with no hosts is reported unhealthy,
never vacuously healthy. -/
theorem C9_empty_hosts_reported_unhealthy :
    check_hosts_health (some ([] : List Host)) = false
    ∧ check_storage_health (some ([] : List Host)) = false
    ∧ check_hosts_health (none : Option (List Host)) = false
    ∧ check_storage_health (none : Option (List Host)) = false
    ∧ check_hosts_health (some ([] : List Host))
        = check_hosts_health (none : Option (List Host))
    ∧ check_storage_health (some ([] : List Host))
        = check_storage_health (none : Option (List Host)) :=
  ⟨rfl, rfl, rfl, rfl, rfl, rfl⟩

/-- C10: a missing health field defaults to the string "Unknown", which
fails both healthy predicates, so any host record with no `health` key
makes the hosts verdict `False` and any recorded disk whose state
defaulted to "Unknown" makes the storage verdict `False` — an absent
health signal counts as unhealthy, never as healthy and never as a
separate unknown state. -/
theorem C10_missing_health_is_unhealthy (hs1 hs2 : List Host) (h : Host)
    (p : String × String) (hmem : h ∈ hs1) (hnone : h.health = none)
    (hp : p ∈ storage_info hs2) (hpu : p.2 = "Unknown") :
    (none : Option String).getD "Unknown" = "Unknown"
    ∧ labelHealthy "Unknown" = false
    ∧ diskOK "Unknown" = false
    ∧ check_hosts_health (some hs1) = false
    ∧ check_storage_health (some hs2) = false := by
  refine ⟨rfl, by decide, by decide, ?_, ?_⟩
  · have hne : hs1 ≠ [] := by
      intro he
      rw [he] at hmem
      cases hmem
    rw [check_hosts_health_some hs1 hne]
    rw [List.all_eq_false]
    refine ⟨h, hmem, ?_⟩
    rw [hnone]
    decide
  · have hne2 : hs2 ≠ [] := by
      intro he
      rw [he] at hp
      cases hp
    rw [check_storage_health_some hs2 hne2]
    rw [List.all_eq_false]
    refine ⟨p, hp, ?_⟩
    unfold okPred
    rw [hpu]
    decide

/-- A host record with no `health` key, used to witness C10. -/
def hostNoHealth : Host := ⟨some "esx1", none, []⟩

/-- A healthy host carrying one disk with no `disk_state` key. -/
def hostWithStatelessDisk : Host :=
  ⟨some "esx2", some "Healthy", [⟨some "SN1", none⟩]⟩

/-- C10 witness: the theorem applied to one host with a missing health
field and one disk with a missing state field. -/
theorem C10_missing_health_is_unhealthy_witness :
    hostNoHealth ∈ [hostNoHealth]
    ∧ hostNoHealth.health = none
    ∧ ("SN1", "Unknown") ∈ storage_info [hostWithStatelessDisk]
    ∧ (("SN1", "Unknown") : String × String).2 = "Unknown"
    ∧ ((none : Option String).getD "Unknown" = "Unknown"
        ∧ labelHealthy "Unknown" = false
        ∧ diskOK "Unknown" = false
        ∧ check_hosts_health (some [hostNoHealth]) = false
        ∧ check_storage_health (some [hostWithStatelessDisk]) = false) :=
  ⟨by decide, rfl, by decide, rfl,
    C10_missing_health_is_unhealthy [hostNoHealth] [hostWithStatelessDisk]
      hostNoHealth ("SN1", "Unknown") (by decide) rfl (by decide) rfl⟩

/-- C1: when each checked kind returned at least one record (a cluster
record, a nonempty host list, at least one recorded disk), the overall
verdict is true iff every entity health record of every kind satisfies its
healthy predicate — the cluster label, every host label, and the
first-observed state of every deduplicated disk. -/
theorem C1_overall_verdict_iff_all_records_healthy (c : ClusterResp)
    (hs1 hs2 : List Host) (h1 : hs1 ≠ []) (h2 : storage_info hs2 ≠ []) :
    system_healthy (some c) (some hs1) (some hs2) = true ↔
      (labelHealthy (c.health.getD "Unknown") = true
        ∧ (∀ h ∈ hs1, labelHealthy (h.health.getD "Unknown") = true)
        ∧ (∀ p ∈ storage_info hs2, okPred p = true)) := by
  have hne2 : hs2 ≠ [] := by
    intro he
    rw [he] at h2
    exact h2 rfl
  unfold system_healthy
  rw [check_hosts_health_some hs1 h1, check_storage_health_some hs2 hne2]
  simp [check_cluster_health, Bool.and_eq_true, List.all_eq_true]

/-- A healthy cluster record. -/
def clusterHealthyEx : ClusterResp := ⟨some "VxRail-Cluster", some "Healthy"⟩

/-- Two healthy hosts carrying three disks, all in state OK. -/
def hostsHealthyEx : List Host :=
  [⟨some "esx1", some "Healthy", [⟨some "SN1", some "OK"⟩, ⟨some "SN2", some "OK"⟩]⟩,
   ⟨some "esx2", some "HEALTHY", [⟨some "SN3", some "OK"⟩]⟩]

/-- Same two hosts but the disk SN2 is DEGRADED. -/
def hostsOneDegradedEx : List Host :=
  [⟨some "esx1", some "Healthy", [⟨some "SN1", some "OK"⟩, ⟨some "SN2", some "DEGRADED"⟩]⟩,
   ⟨some "esx2", some "HEALTHY", [⟨some "SN3", some "OK"⟩]⟩]

/-- C1 witness: the equivalence applied to the full-healthy scenario with
one DEGRADED disk; the verdict is false and that disk is the only
unhealthy record. -/
theorem C1_overall_verdict_iff_all_records_healthy_witness :
    hostsHealthyEx ≠ []
    ∧ storage_info hostsOneDegradedEx ≠ []
    ∧ (system_healthy (some clusterHealthyEx) (some hostsHealthyEx)
          (some hostsOneDegradedEx) = true ↔
        (labelHealthy (clusterHealthyEx.health.getD "Unknown") = true
          ∧ (∀ h ∈ hostsHealthyEx, labelHealthy (h.health.getD "Unknown") = true)
          ∧ (∀ p ∈ storage_info hostsOneDegradedEx, okPred p = true)))
    ∧ system_healthy (some clusterHealthyEx) (some hostsHealthyEx)
        (some hostsOneDegradedEx) = false
    ∧ system_healthy (some clusterHealthyEx) (some hostsHealthyEx)
        (some hostsHealthyEx) = true
    ∧ (storage_info hostsOneDegradedEx).filter (fun p => !okPred p)
        = [("SN2", "DEGRADED")] :=
  ⟨by decide, by decide,
    C1_overall_verdict_iff_all_records_healthy clusterHealthyEx hostsHealthyEx
      hostsOneDegradedEx (by decide) (by decide),
    by decide, by decide, by decide⟩

/-- C2: when a serial number is observed more than once across the hosts
response, the aggregated storage list keeps exactly one record for it,
equal to the first observation; later duplicates are discarded without
overwriting the first, and the verdict is a function of the deduplicated
records only. -/
theorem C2_dedup_first_observation_wins (hosts : List Host) (s : String)
    (hdup : 2 ≤ (allDisks hosts).countP (fun d => diskKey d == s)) :
    (storage_info hosts).countP (fun p => p.1 == s) = 1
    ∧ (storage_info hosts).lookup s
        = ((allDisks hosts).find? (fun d => diskKey d == s)).map diskState
    ∧ (storageScan hosts).1 = (storage_info hosts).all okPred := by
  refine ⟨?_, storage_info_lookup hosts s, storageScan_flag hosts⟩
  have hpos : 0 < (allDisks hosts).countP (fun d => diskKey d == s) := by omega
  rcases List.countP_pos_iff.mp hpos with ⟨d, hd, hds⟩
  have hfind : ((allDisks hosts).find? (fun d => diskKey d == s)).isSome :=
    List.find?_isSome.mpr ⟨d, hd, hds⟩
  have hlook : ((storage_info hosts).lookup s).isSome := by
    rw [storage_info_lookup hosts s]
    simpa using hfind
  have hmem : s ∈ (storage_info hosts).map Prod.fst := by
    rcases Option.isSome_iff_exists.mp hlook with ⟨v, hv⟩
    rcases List.lookup_eq_some_iff.mp hv with ⟨l₁, l₂, heq, hleft⟩
    rw [heq]
    simp
  have hcnt : List.count s ((storage_info hosts).map Prod.fst)
      = (storage_info hosts).countP (fun p => p.1 == s) := by
    rw [List.count_eq_countP, List.countP_map]
    rfl
  rw [← hcnt]
  exact List.count_eq_one_of_mem (storage_info_keys_nodup hosts) hmem

/-- Hosts response observing serial SN123 three times: once on the first
host (state OK) and twice nested under a second host (DEGRADED, FAILED),
plus an unrelated disk. -/
def hostsDupSNEx : List Host :=
  [⟨some "esx1", some "Healthy", [⟨some "SN123", some "OK"⟩]⟩,
   ⟨some "esx2", some "Healthy",
     [⟨some "SN123", some "DEGRADED"⟩, ⟨some "SN999", some "OK"⟩,
      ⟨some "SN123", some "FAILED"⟩]⟩]

/-- C2 witness: SN123 is reported three times yet recorded once, with its
first-observed state OK, and the duplicate DEGRADED observations do not
flip the verdict. -/
theorem C2_dedup_first_observation_wins_witness :
    2 ≤ (allDisks hostsDupSNEx).countP (fun d => diskKey d == "SN123")
    ∧ ((storage_info hostsDupSNEx).countP (fun p => p.1 == "SN123") = 1
      ∧ (storage_info hostsDupSNEx).lookup "SN123"
          = ((allDisks hostsDupSNEx).find? (fun d => diskKey d == "SN123")).map diskState
      ∧ (storageScan hostsDupSNEx).1 = (storage_info hostsDupSNEx).all okPred)
    ∧ storage_info hostsDupSNEx = [("SN123", "OK"), ("SN999", "OK")]
    ∧ check_storage_health (some hostsDupSNEx) = true :=
  ⟨by decide,
    C2_dedup_first_observation_wins hostsDupSNEx "SN123" (by decide),
    by decide, by decide⟩

/-- One unfolding step of the polling loop. -/
lemma pollLoop_succ (status : Nat → ApiResult StatusResp)
    (result : ApiResult String) (i polls sleeps fuel : Nat) :
    pollLoop status result i polls sleeps (fuel + 1)
      = match status i with
        | .err _ => some ⟨.transportError, polls + 1, sleeps, 0⟩
        | .ok st =>
          if st.state.getD "" == "COMPLETED" then
            match result with
            | .ok p => some ⟨.payload p, polls + 1, sleeps, 1⟩
            | .err _ => some ⟨.transportError, polls + 1, sleeps, 1⟩
          else if st.state.getD "" == "FAILED" then
            some ⟨.failedState, polls + 1, sleeps, 0⟩
          else pollLoop status result (i + 1) (polls + 1) (sleeps + 1) fuel := rfl

/-- With no terminal observation the polling loop never returns, whatever
iteration budget it is given. -/
lemma pollLoop_none_of_no_terminal (status : Nat → ApiResult StatusResp)
    (result : ApiResult String) (h : ∀ n, isTerminalObs (status n) = false) :
    ∀ fuel i polls sleeps, pollLoop status result i polls sleeps fuel = none := by
  intro fuel
  induction fuel with
  | zero => intro i polls sleeps; rfl
  | succ fuel ih =>
    intro i polls sleeps
    have hi := h i
    rw [pollLoop_succ]
    cases hst : status i with
    | err e =>
      rw [hst] at hi
      simp [isTerminalObs] at hi
    | ok st =>
      rw [hst] at hi
      unfold isTerminalObs at hi
      rw [Bool.or_eq_false_iff] at hi
      dsimp only
      rw [if_neg (by simp [hi.1]), if_neg (by simp [hi.2])]
      exact ih (i + 1) (polls + 1) (sleeps + 1)

/-- C3 counterexample: the submission succeeds with request_id "abc" and
every poll answers RUNNING; even after a budget of 100 iterations — far
beyond the at most 3 polls a max_wait below 3 poll intervals would allow —
`perform_health_precheck` has not returned, so it never produces a
TIMED_OUT outcome (no such outcome exists in the code, which has no
max_wait parameter at all). -/
theorem C3_counterexample_no_timeout_after_100_polls :
    runPrecheck (.ok (some "abc")) statusAlwaysRunning (.ok "precheck-result") 100
      = none := by decide

/-- C3 amended: `perform_health_precheck` has no max_wait deadline; on any
poll sequence with no terminal observation (no COMPLETED, no FAILED, no
transport error) the loop never returns for any iteration budget, and in
particular never returns TIMED_OUT. -/
theorem C3_amended_poll_loop_never_times_out (status : Nat → ApiResult StatusResp)
    (result : ApiResult String) (fuel : Nat)
    (h : ∀ n, isTerminalObs (status n) = false) :
    runPrecheck (.ok (some "abc")) status result fuel = none := by
  have hred : runPrecheck (.ok (some "abc")) status result fuel
      = pollLoop status result 0 0 0 fuel := rfl
  rw [hred]
  exact pollLoop_none_of_no_terminal status result h fuel 0 0 0

/-- C3 witness: the amended theorem applied to the always-RUNNING stream
with a budget of 5 iterations. -/
theorem C3_amended_poll_loop_never_times_out_witness :
    (∀ n, isTerminalObs (statusAlwaysRunning n) = false)
    ∧ runPrecheck (.ok (some "abc")) statusAlwaysRunning (.ok "precheck-result") 5
        = none :=
  ⟨fun _ => rfl,
    C3_amended_poll_loop_never_times_out statusAlwaysRunning
      (.ok "precheck-result") 5 (fun _ => rfl)⟩

/-- C6: on the poll sequence RUNNING, RUNNING, COMPLETED the tracker
returns after exactly 2 sleeps (3 status polls) and performs exactly one
additional fetch of the separate result resource; the returned payload is
the result resource's body, never the status response. -/
theorem C6_completed_fetches_result_after_two_sleeps :
    runPrecheck (.ok (some "abc")) statusRunRunCompleted (.ok "detailed-result") 10
      = some ⟨.payload "detailed-result", 3, 2, 1⟩ := by decide

/-- C8: a submission response whose request_id is missing or empty is
reported as a submission failure and no status poll is ever issued —
an unusable request_id is never treated as a pollable state. -/
theorem C8_no_poll_without_request_id (rid : Option String)
    (status : Nat → ApiResult StatusResp) (result : ApiResult String)
    (fuel : Nat) (h : rid = none ∨ rid = some "") :
    runPrecheck (.ok rid) status result fuel = some ⟨.noRequestId, 0, 0, 0⟩ := by
  rcases h with h | h <;> subst h <;> rfl

/-- C8 witness: the theorem applied to a response with no request_id. -/
theorem C8_no_poll_without_request_id_witness :
    ((none : Option String) = none ∨ (none : Option String) = some "")
    ∧ runPrecheck (.ok none) statusAlwaysRunning (.ok "precheck-result") 7
        = some ⟨.noRequestId, 0, 0, 0⟩ :=
  ⟨Or.inl rfl,
    C8_no_poll_without_request_id none statusAlwaysRunning
      (.ok "precheck-result") 7 (Or.inl rfl)⟩

/-- The system endpoint response used by the run-level examples. -/
def sysEx : SystemResp := ⟨some "8.0.010"⟩

/-- Cluster and hosts succeed and are healthy; the storage query fails
with a connection error. -/
def transportStorageDown : Transport :=
  ⟨.ok sysEx, .ok clusterHealthyEx, .ok hostsHealthyEx, .err .unreachable⟩

/-- Same run but the storage query succeeds and reports a DEGRADED disk. -/
def transportOneDegraded : Transport :=
  ⟨.ok sysEx, .ok clusterHealthyEx, .ok hostsHealthyEx, .ok hostsOneDegradedEx⟩

/-- Every query is rejected with HTTP 401. -/
def transportAllUnauthorized : Transport :=
  ⟨.err .unauthorized, .err .unauthorized, .err .unauthorized, .err .unauthorized⟩

/-- C5 counterexample: with cluster and hosts healthy and the storage
query failing with Unreachable, the run completes without raising, but
the overall verdict is the boolean `false` — exactly the value produced
when a disk is genuinely degraded — not a distinct tri-state "unknown". -/
theorem C5_counterexample_storage_failure_reported_false :
    (mainRun transportStorageDown).completed = true
    ∧ (mainRun transportStorageDown).cluster_healthy = true
    ∧ (mainRun transportStorageDown).hosts_healthy = true
    ∧ (mainRun transportStorageDown).storage_healthy = false
    ∧ (mainRun transportStorageDown).overall_healthy = false
    ∧ (mainRun transportStorageDown).overall_healthy
        = (mainRun transportOneDegraded).overall_healthy := by decide

/-- C5 amended: a failed storage query yields zero storage records and
makes `check_storage_health` — and with it the overall verdict — the
boolean `false`; the run still completes without raising, but no unknown
tri-state exists: query failure is folded into "unhealthy". -/
theorem C5_amended_storage_failure_folds_to_false (c : ClusterResp)
    (hs : List Host) (e : TransportError) (t : Transport) :
    make_api_request (.err e : ApiResult (List Host)) = none
    ∧ check_storage_health (none : Option (List Host)) = false
    ∧ system_healthy (some c) (some hs) none = false
    ∧ (mainRun t).completed = true := by
  refine ⟨rfl, rfl, ?_, rfl⟩
  unfold system_healthy
  simp [check_storage_health]

/-- C7 counterexample: with every query answered 401, the run does not
terminate at the first Unauthorized: it still issues all four queries and
completes with a full (all-unhealthy) summary. -/
theorem C7_counterexample_run_continues_after_unauthorized :
    (mainRun transportAllUnauthorized).completed = true
    ∧ (mainRun transportAllUnauthorized).requests = endpoints_queried
    ∧ (mainRun transportAllUnauthorized).requests.length = 4
    ∧ (mainRun transportAllUnauthorized).overall_healthy = false := by decide

/-- C7 amended: an Unauthorized response prints an authentication-failure
message for that call but is otherwise handled exactly like
NotFound/Unreachable/TimedOut: the call yields no data, the affected kind
degrades to `False`, and the run always issues all four queries and
terminates with a complete summary; credentials are never retried. -/
theorem C7_amended_unauthorized_degrades_like_other_errors
    (t : Transport) (e : TransportError) (endpoint : String) :
    (mainRun t).completed = true
    ∧ (mainRun t).requests.length = 4
    ∧ make_api_request (.err .unauthorized : ApiResult ClusterResp)
        = make_api_request (.err e : ApiResult ClusterResp)
    ∧ make_api_request (.err .unauthorized : ApiResult ClusterResp) = none
    ∧ api_error_message endpoint .unauthorized
        = "Error: Authentication failed. Please check your credentials." :=
  ⟨rfl, rfl, rfl, rfl, rfl⟩

end VxRail
